import Mathlib

/-!
Verification development for the FTGPT conversational agent core
(`app/core/agent.py`, `app/core/tools.py`, `app/api/auth.py`).
Python functions are shallowly embedded as Lean definitions; exceptions
are modelled with `Except`, mutable caches and stores with explicit
state passing.
-/

set_option autoImplicit false

namespace FTGPT

/-- Python `str.lower` restricted to the character ranges appearing in the
program: ASCII upper case and Latin-1 accented upper case (U+00C0..U+00DE
except the multiplication sign U+00D7) map to their lower-case forms. -/
def pyLowerChar (c : Char) : Char :=
  if 65 ≤ c.toNat ∧ c.toNat ≤ 90 then Char.ofNat (c.toNat + 32)
  else if 192 ≤ c.toNat ∧ c.toNat ≤ 222 ∧ c.toNat ≠ 215 then Char.ofNat (c.toNat + 32)
  else c

/-- Python `s.lower()` on a whole string. -/
def pyLower (s : String) : String :=
  String.mk (s.data.map pyLowerChar)

/-- Python substring membership `needle in hay` on character lists. -/
def subOf (needle : List Char) : List Char → Bool
  | [] => needle.isEmpty
  | c :: rest => needle.isPrefixOf (c :: rest) || subOf needle rest

/-- Python `needle in hay` for strings. -/
def strContainsSub (hay needle : String) : Bool :=
  subOf needle.data hay.data

/-- A LangChain message as the agent code uses it: text content, the names
of the tool calls attached to it (empty for plain messages), and its
metadata mapping. -/
structure Msg where
  content : String
  tool_calls : List String := []
  metadata : List (String × String) := []
deriving Repr, DecidableEq

/-- Structure `AgentState` from `app/core/agent.py`: the LangGraph state. -/
structure AgentState where
  messages : List Msg
  user_profile : List (String × String) := []
  current_intent : Option String := none
  specialized_response : Option String := none
  thread_id : String := ""
deriving Repr, DecidableEq

/-- The per-intent trigger-word table of
`FranceTravailAgent._route_condition` (`specialized_triggers`). -/
def specializedTriggers (intent : String) : Option (List String) :=
  if intent = "cv_help" then some ["génère", "crée", "rédige", "fais-moi"]
  else if intent = "cover_letter" then some ["écris", "rédige", "génère", "prépare"]
  else if intent = "profile" then some ["analyse", "évalue", "diagnostic", "bilan"]
  else none

/-- Method `FranceTravailAgent._route_condition`: routes to the string node name
"specialized" or "agent" from the classified intent and the lower-cased
last message. -/
def routeCondition (state : AgentState) : String :=
  let intent := state.current_intent.getD "general"
  let lastMessage :=
    match state.messages.getLast? with
    | some m => pyLower m.content
    | none => ""
  match specializedTriggers intent with
  | some triggers =>
      if triggers.any (fun t => strContainsSub lastMessage t) then "specialized"
      else "agent"
  | none => "agent"

/-- The seven intent labels of the closed intent set. -/
def intentLabels : List String :=
  ["job_search", "cv_help", "cover_letter", "training", "admin", "profile", "general"]

/-- Concrete state: a question about CVs, classified as `cv_help`. -/
def stateCvQuestion : AgentState :=
  { messages := [{ content := "Comment améliorer mon CV ?" }],
    current_intent := some "cv_help" }

/-- Concrete state: an explicit CV generation request, classified `cv_help`. -/
def stateCvGenerate : AgentState :=
  { messages := [{ content := "Peux-tu générer mon CV ?" }],
    current_intent := some "cv_help" }

example : routeCondition stateCvQuestion = "agent" := by decide

example : routeCondition stateCvGenerate = "agent" := by decide

example : routeCondition { stateCvGenerate with
                           messages := [{ content := "Génère mon CV" }] } = "specialized" := by
  decide

/-! ## `FranceTravailAgent.process_message` (`app/core/agent.py` 253-305) -/

/-- A value stored in the result dictionary of `process_message`. -/
inductive PMVal where
  | str : String → PMVal
  | bool : Bool → PMVal
  | strList : List String → PMVal
  | dict : List (String × String) → PMVal
deriving Repr, DecidableEq

/-- The fixed apology text of the `except` branch of `process_message`. -/
def apologyText : String :=
  "Désolé, une erreur s\x27est produite. Pouvez-vous reformuler votre question ?"

/-- The final graph state returned by `self.app.ainvoke`: the fields of
`AgentState` that `process_message` reads. -/
structure GraphResult where
  messages : List Msg
  current_intent : Option String := none
  specialized_response : Option String := none
deriving Repr, DecidableEq

/-- The tools-used extraction loop of `process_message`: collects the
tool-call names of every message that carries a non-empty tool-call list. -/
def extractToolsUsed (msgs : List Msg) : List String :=
  msgs.foldl (fun acc m => if m.tool_calls.isEmpty then acc else acc ++ m.tool_calls) []

/-- Python truthiness of `Optional[str]`: `None` and `""` are falsy. -/
def optStrTruthy (v : Option String) : Bool :=
  match v with
  | none => false
  | some s => !s.isEmpty

/-- Method `FranceTravailAgent.process_message`. The whole graph invocation
(`self.app.ainvoke`), which may raise, is abstracted as the `outcome`
argument: `.ok` carries the final graph state, `.error` the string form of
whatever exception was raised (intent detection, routing, model call, tool
execution or formatting). The result dictionary is an association list in
the insertion order of the Python dict literals. A success outcome with no
messages makes `result["messages"][-1]` raise an `IndexError`, landing in
the same `except` branch. -/
def processMessage (message : String) (thread_id : String)
    (user_profile : Option (List (String × String)))
    (outcome : Except String GraphResult) : List (String × PMVal) :=
  match outcome with
  | .error e =>
      [("response", .str apologyText), ("error", .str e), ("thread_id", .str thread_id)]
  | .ok result =>
      match result.messages.getLast? with
      | none =>
          [("response", .str apologyText), ("error", .str "list index out of range"),
           ("thread_id", .str thread_id)]
      | some finalMessage =>
          [("response", .str finalMessage.content),
           ("intent", .str (result.current_intent.getD "general")),
           ("specialized", .bool (optStrTruthy result.specialized_response)),
           ("thread_id", .str thread_id),
           ("tools_used", .strList (extractToolsUsed result.messages)),
           ("metadata", .dict finalMessage.metadata)]

/-- Field lookup in the result dictionary. -/
def lookupField (r : List (String × PMVal)) (k : String) : Option PMVal :=
  (r.find? (fun p => p.1 == k)).map (fun p => p.2)

example :
    lookupField (processMessage "hi" "t1" none (.error "boom")) "response"
      = some (.str apologyText) := by decide

example :
    lookupField (processMessage "hi" "t1" none (.error "boom")) "intent" = none := by decide

/-! ## `FranceTravailAuth` (`app/api/auth.py`) and `AccessToken`
(`app/api/models.py`). Time is modelled as an integer number of seconds. -/

/-- The parsed JSON body of the token endpoint response. -/
structure TokenResponse where
  access_token : String
  token_type : String
  expires_in : Int
  scope : String
deriving Repr, DecidableEq

/-- Structure `AccessToken` from `app/api/models.py`. -/
structure AccessToken where
  access_token : String
  token_type : String
  expires_in : Int
  scope : String
  expires_at : Int
deriving Repr, DecidableEq

/-- Method `AccessToken.is_expired`: `datetime.now() >= self.expires_at`. -/
def AccessToken.isExpired (t : AccessToken) (now : Int) : Bool :=
  now ≥ t.expires_at

/-- Method `FranceTravailAuth._request_new_token`: builds the cached token from the
endpoint response, with `expires_at = now + (expires_in - 60)` (the fixed
60-second safety margin). -/
def requestNewToken (now : Int) (r : TokenResponse) : AccessToken :=
  { access_token := r.access_token, token_type := r.token_type,
    expires_in := r.expires_in, scope := r.scope,
    expires_at := now + (r.expires_in - 60) }

/-- Method `FranceTravailAuth.get_access_token`, as a function of the cache state
(`self._token_cache`), the current time, and the endpoint response a
refresh would produce. Returns the token string, the new cache state, and
the number of refresh requests performed. The body runs under
`self._lock`, so callers are serialized and the check-then-refresh is
atomic. -/
def getAccessToken (cache : Option AccessToken) (now : Int) (r : TokenResponse) :
    String × Option AccessToken × Nat :=
  match cache with
  | some t =>
      if !t.isExpired now then (t.access_token, some t, 0)
      else ((requestNewToken now r).access_token, some (requestNewToken now r), 1)
  | none => ((requestNewToken now r).access_token, some (requestNewToken now r), 1)

example :
    getAccessToken (some { access_token := "tok", token_type := "Bearer",
                           expires_in := 1500, scope := "s", expires_at := 100 })
      50 { access_token := "new", token_type := "Bearer", expires_in := 1500, scope := "s" }
      = ("tok", some { access_token := "tok", token_type := "Bearer",
                       expires_in := 1500, scope := "s", expires_at := 100 }, 0) := by decide

example :
    getAccessToken none 50
      { access_token := "new", token_type := "Bearer", expires_in := 1500, scope := "s" }
      = ("new", some { access_token := "new", token_type := "Bearer",
                       expires_in := 1500, scope := "s", expires_at := 1490 }, 1) := by decide

/-! ## The tool layer (`app/core/tools.py`) with its input models
(`app/api/models.py`). Each tool body is embedded as a total function; a
Python `raise` is an `Except.error` value carrying the exception text. -/

/-- Enum `ContractType` from `app/api/models.py`. -/
inductive ContractType where
  | cdi | cdd | interim | alternance | stage
deriving Repr, DecidableEq

/-- The string value of each `ContractType` member. -/
def ContractType.value : ContractType → String
  | .cdi => "CDI"
  | .cdd => "CDD"
  | .interim => "MIS"
  | .alternance => "SAI"
  | .stage => "STG"

/-- The member NAMES of `ContractType` (the keys of
`ContractType.__members__`), distinct from the member values. -/
def contractTypeMemberNames : List String :=
  ["CDI", "CDD", "INTERIM", "ALTERNANCE", "STAGE"]

/-- Python `ContractType(s)`: construction by VALUE; raises `ValueError`
for a string that is not a member value. -/
def ContractType.byValue (s : String) : Except String ContractType :=
  if s = "CDI" then .ok .cdi
  else if s = "CDD" then .ok .cdd
  else if s = "MIS" then .ok .interim
  else if s = "SAI" then .ok .alternance
  else if s = "STG" then .ok .stage
  else .error ("\x27" ++ s ++ "\x27 is not a valid ContractType")

/-- Enum `ExperienceLevel` from `app/api/models.py`. -/
inductive ExperienceLevel where
  | debutant | experimente | senior
deriving Repr, DecidableEq

/-- The string value of each `ExperienceLevel` member. -/
def ExperienceLevel.value : ExperienceLevel → String
  | .debutant => "D"
  | .experimente => "E"
  | .senior => "S"

/-- The `valid_types` list of `JobSearchInput.validate_contract_types`. -/
def validContractTypeValues : List String :=
  ["CDI", "CDD", "MIS", "SAI", "STG"]

/-- Validator `JobSearchInput.validate_contract_types`: a pydantic field
validator signals a validation error by raising (`Except.error`); this one
never raises — it keeps the entries that are valid values and silently
drops the rest. -/
def validate_contract_types (v : Option (List String)) :
    Except String (Option (List String)) :=
  match v with
  | none => .ok none
  | some l => .ok (some (l.filter (fun ct => validContractTypeValues.contains ct)))

/-- The `contract_enum` conversion at the top of
`SearchJobOffersTool._arun`: `None` or an empty list is falsy, so the
enum list stays `None`; otherwise each entry whose string is a member NAME
of `ContractType` is converted by VALUE (which can raise `ValueError`). -/
def convertContractTypes (v : Option (List String)) :
    Except String (Option (List ContractType)) :=
  match v with
  | none => .ok none
  | some [] => .ok none
  | some l =>
      ((l.filter (fun ct => contractTypeMemberNames.contains ct)).mapM
        ContractType.byValue).map some

/-- The contract-type filter reaching `SearchOfferRequest` after pydantic
validation of `JobSearchInput` and the `_arun` conversion. -/
def contractFilterOfInput (l : List String) : Except String (Option (List ContractType)) :=
  match validate_contract_types (some l) with
  | .error e => .error e
  | .ok v => convertContractTypes v

example : contractFilterOfInput ["FOO", "BAR"] = .ok none := rfl

example : contractFilterOfInput ["CDI", "MIS"] = .ok (some [.cdi]) := rfl

/-- A calendar date, enough for `strftime` with format `%d/%m/%Y`. -/
structure PyDate where
  year : Nat
  month : Nat
  day : Nat
deriving Repr, DecidableEq

/-- Zero-padding to two digits, as `strftime` `%d` and `%m` do. -/
def pad2 (n : Nat) : String :=
  if n < 10 then "0" ++ toString n else toString n

/-- Zero-padding to four digits, as `strftime` `%Y` does. -/
def pad4 (n : Nat) : String :=
  if n < 10 then "000" ++ toString n
  else if n < 100 then "00" ++ toString n
  else if n < 1000 then "0" ++ toString n
  else toString n

/-- Python `d.strftime("%d/%m/%Y")`. -/
def strfDMY (d : PyDate) : String :=
  pad2 d.day ++ "/" ++ pad2 d.month ++ "/" ++ pad4 d.year

/-- Structure `JobOffer` from `app/api/models.py` (the fields the tool
formatting reads). -/
structure JobOffer where
  id : String := ""
  title : String
  description : String := ""
  company_name : String
  location : String
  contract_type : ContractType
  salary_description : Option String := none
  experience_required : ExperienceLevel
  skills : List String := []
  date_creation : PyDate
  date_update : PyDate := { year := 2025, month := 1, day := 1 }
  url : String
deriving Repr, DecidableEq

/-- Structure `SearchOfferResponse` from `app/api/models.py`. -/
structure SearchOfferResponse where
  total_results : Nat
  offers : List JobOffer
deriving Repr, DecidableEq

/-- The fixed no-offers message of `SearchJobOffersTool._arun`. -/
def noOffersMsg : String :=
  "Aucune offre trouvée avec ces critères. Essayez d\x27élargir votre recherche."

/-- The header line carrying the total count. -/
def offersHeader (total : Nat) : String :=
  "🔍 **" ++ toString total ++ " offres trouvées**\n\n"

/-- The trailing note when more than five offers exist. -/
def remainingNote (remaining : Nat) : String :=
  "_... et " ++ toString remaining ++ " autres offres disponibles_"

/-- One offer block of the formatted summary (loop body of `_arun`). -/
def formatOffer (i : Nat) (o : JobOffer) : String :=
  "**" ++ toString i ++ ". " ++ o.title ++ "**\n" ++
  "   📍 " ++ o.company_name ++ " - " ++ o.location ++ "\n" ++
  "   📄 Contrat : " ++ o.contract_type.value ++ "\n" ++
  (if (o.salary_description.getD "").isEmpty then ""
   else "   💰 Salaire : " ++ o.salary_description.getD "" ++ "\n") ++
  "   🎯 Expérience : " ++ o.experience_required.value ++ "\n" ++
  "   📅 Publié le : " ++ strfDMY o.date_creation ++ "\n" ++
  "   🔗 [Voir l\x27offre](" ++ o.url ++ ")\n\n"

/-- Python `for i, offer in enumerate(offers, start)`. -/
def formatOffers (start : Nat) : List JobOffer → String
  | [] => ""
  | o :: rest => formatOffer start o ++ formatOffers (start + 1) rest

/-- The response-formatting part of `SearchJobOffersTool._arun` (lines
77-95): zero results give the fixed message, otherwise the header with the
total count, the first five offers (`response.offers[:5]`), and — when
more than five offers matched — the remaining-count note. -/
def searchOffersFormat (resp : SearchOfferResponse) : String :=
  if resp.total_results = 0 then noOffersMsg
  else
    offersHeader resp.total_results ++ formatOffers 1 (resp.offers.take 5) ++
      (if 5 < resp.total_results then remainingNote (resp.total_results - 5) else "")

/-- Tool body `SearchJobOffersTool._arun` around the API call: the
underlying `france_travail_api.search_offers` outcome is the argument; any
exception it raises is caught and re-raised as a `ToolException` whose
message wraps the original error text. -/
def searchJobOffersArun (apiOutcome : Except String SearchOfferResponse) :
    Except String String :=
  match apiOutcome with
  | .error e => .error ("Erreur lors de la recherche d\x27offres : " ++ e)
  | .ok resp => .ok (searchOffersFormat resp)

/-- A knowledge-base document as `SearchKnowledgeTool._run` reads it:
page content plus the `source` and `category` metadata entries (absent
entries fall back to fixed defaults via `metadata.get`). -/
structure KDoc where
  page_content : String
  source : Option String := none
  category : Option String := none
deriving Repr, DecidableEq

/-- Python `s[:300]`. -/
def strTake (n : Nat) (s : String) : String :=
  String.mk (s.data.take n)

/-- One snippet block of the knowledge formatting loop. -/
def formatKDoc (i : Nat) (d : KDoc) : String :=
  "**" ++ toString i ++ ". " ++ d.source.getD "Base de connaissances" ++ "** (" ++
    d.category.getD "Général" ++ ")\n" ++ strTake 300 d.page_content ++ "...\n\n"

/-- Python `for i, doc in enumerate(results, 1)` of the knowledge tool. -/
def formatKDocs (start : Nat) : List KDoc → String
  | [] => ""
  | d :: rest => formatKDoc start d ++ formatKDocs (start + 1) rest

/-- Tool body `SearchKnowledgeTool._run` around the vector-store query:
empty results give the fixed nothing-found message; an exception from the
query is caught and re-raised as a `ToolException` wrapping the error
text. -/
def searchKnowledgeRun (queryOutcome : Except String (List KDoc)) :
    Except String String :=
  match queryOutcome with
  | .error e => .error ("Erreur lors de la recherche : " ++ e)
  | .ok [] => .ok "Aucune information trouvée dans la base de connaissances sur ce sujet."
  | .ok results => .ok ("📚 **Informations trouvées :**\n\n" ++ formatKDocs 1 results)

/-- One topic entry of the in-memory `admin_info` table of
`GetAdminInfoTool._run`; absent keys of the Python dict are `none`. -/
structure AdminTopicInfo where
  title : String
  steps : Option (List String) := none
  documents : Option (List String) := none
  period : Option String := none
  conditions : Option (List String) := none
  calcul : Option (List (String × String)) := none
  duree : Option String := none
  important : Option String := none
deriving Repr, DecidableEq

/-- The `inscription` entry of the `admin_info` table. -/
def inscriptionInfo : AdminTopicInfo :=
  { title := "📝 Inscription à France Travail",
    steps := some [
      "**Étape 1** : Préinscription en ligne sur francetravail.fr",
      "**Étape 2** : Création de votre espace personnel",
      "**Étape 3** : Remplissage du formulaire détaillé",
      "**Étape 4** : Prise de RDV avec un conseiller (sous 5 jours)",
      "**Étape 5** : Entretien d\x27inscription et validation"],
    documents := some [
      "✓ Pièce d\x27identité valide",
      "✓ Justificatif de domicile < 3 mois",
      "✓ RIB",
      "✓ Carte vitale",
      "✓ CV actualisé",
      "✓ Certificats de travail"],
    important := some
      "⚠️ L\x27inscription doit être faite dans les 12 mois suivant la fin du contrat" }

/-- The `actualisation` entry of the `admin_info` table. -/
def actualisationInfo : AdminTopicInfo :=
  { title := "🔄 Actualisation mensuelle",
    period := some "**Quand** : Entre le 28 et le 15 du mois suivant",
    steps := some [
      "1️⃣ Connectez-vous à votre espace personnel",
      "2️⃣ Cliquez sur \x27M\x27actualiser\x27",
      "3️⃣ Déclarez votre situation du mois écoulé",
      "4️⃣ Indiquez les heures travaillées et revenus",
      "5️⃣ Validez avant le 15 (minuit)"],
    important := some "⚠️ Sans actualisation = radiation + suspension des allocations" }

/-- The `allocations` entry of the `admin_info` table. -/
def allocationsInfo : AdminTopicInfo :=
  { title := "💰 Allocations chômage (ARE)",
    conditions := some [
      "✓ 6 mois travaillés (130j ou 910h) sur 24 mois",
      "✓ Privation involontaire d\x27emploi",
      "✓ Inscription et recherche active",
      "✓ Aptitude physique au travail"],
    calcul := some [
      ("formule", "ARE journalière = MAX(57% du SJR ; 40.4% du SJR + 12,47€)"),
      ("minimum", "30,42€/jour"),
      ("maximum", "75% du SJR")],
    duree := some "Jours travaillés × 1,4 (min 182j, max selon âge)" }

/-- Lookup `admin_info.get(topic.lower())` — the keys of the table. -/
def adminInfoLookup (key : String) : Option AdminTopicInfo :=
  if key = "inscription" then some inscriptionInfo
  else if key = "actualisation" then some actualisationInfo
  else if key = "allocations" then some allocationsInfo
  else none

/-- The unknown-topic message: the valid topics joined in table order. -/
def adminTopicsMsg : String :=
  "Sujet non trouvé. Sujets disponibles : inscription, actualisation, allocations"

/-- Python `str.capitalize` (ASCII): first character upper case, the rest
lower case. -/
def pyCapitalize (s : String) : String :=
  match s.data with
  | [] => ""
  | c :: cs =>
      String.mk ((if 97 ≤ c.toNat ∧ c.toNat ≤ 122 then Char.ofNat (c.toNat - 32) else c)
        :: cs.map pyLowerChar)

/-- Join a list of lines, a trailing newline after each. -/
def joinLines (l : List String) : String :=
  match l with
  | [] => ""
  | s :: rest => s ++ "\n" ++ joinLines rest

/-- The calc-section loop of `GetAdminInfoTool._run`. -/
def joinCalcLines (l : List (String × String)) : String :=
  match l with
  | [] => ""
  | (k, v) :: rest => "**" ++ pyCapitalize k ++ "** : " ++ v ++ "\n" ++ joinCalcLines rest

/-- The response-formatting part of `GetAdminInfoTool._run` (lines
242-276): the title header, then the optional steps, documents,
conditions, calc and important sections in source order, then the
user-situation tail when `user_situation` is truthy. -/
def formatAdminInfo (info : AdminTopicInfo) (user_situation : Option String) : String :=
  "## " ++ info.title ++ "\n\n" ++
  (match info.steps with
   | none => ""
   | some steps => "### 📋 Étapes :\n" ++ joinLines steps ++ "\n") ++
  (match info.documents with
   | none => ""
   | some docs => "### 📄 Documents nécessaires :\n" ++ joinLines docs ++ "\n") ++
  (match info.conditions with
   | none => ""
   | some conds => "### ✅ Conditions :\n" ++ joinLines conds ++ "\n") ++
  (match info.calcul with
   | none => ""
   | some entries => "### 🧮 Calcul :\n" ++ joinCalcLines entries ++ "\n") ++
  (match info.important with
   | none => ""
   | some imp => "\n" ++ imp ++ "\n") ++
  (if optStrTruthy user_situation then
     "\n📌 **Votre situation** : " ++ user_situation.getD "" ++ "\n" ++
       "→ N\x27hésitez pas à préciser votre cas pour des conseils personnalisés."
   else "")

/-- Tool body `GetAdminInfoTool._run`: looks the lower-cased topic up in
the fixed table; an unknown topic yields the valid-topics message, a known
one its formatted information. The body has no fallible sub-operation and
never raises. -/
def getAdminInfo (topic : String) (user_situation : Option String) : String :=
  match adminInfoLookup (pyLower topic) with
  | none => adminTopicsMsg
  | some info => formatAdminInfo info user_situation

example : getAdminInfo "unknown_topic" none = adminTopicsMsg := by decide

/-- Tool body `GenerateDocumentTool._run`: dispatches on `doc_type`; the
underlying generator call outcomes (which may raise) are the `cvGen` and
`clGen` arguments, carrying the produced file name on success. An
unsupported `doc_type` raises `ValueError`, and every exception of the
`try` block is caught and re-raised as a `ToolException` wrapping the
error text. -/
def generateDocumentRun (doc_type : String) (cvGen clGen : Except String String) :
    Except String String :=
  if doc_type = "cv" then
    match cvGen with
    | .ok name => .ok ("✅ CV généré avec succès !\n📄 Fichier : " ++ name ++
        "\n\nVous pouvez le télécharger depuis l\x27onglet \x27Mes documents\x27.")
    | .error e => .error ("Erreur lors de la génération : " ++ e)
  else if doc_type = "lettre_motivation" then
    match clGen with
    | .ok name => .ok ("✅ Lettre de motivation générée !\n📄 Fichier : " ++ name ++
        "\n\nVous pouvez la télécharger depuis l\x27onglet \x27Mes documents\x27.")
    | .error e => .error ("Erreur lors de la génération : " ++ e)
  else .error ("Erreur lors de la génération : Type de document non supporté : " ++ doc_type)

/-- Modelled from the spec: the tool-execution node of the agent loop
(langgraph's `ToolNode`, outside this repository) "must convert the
exception into a tool-level error string (not propagate) so the agent
loop can continue" — a raised `ToolException` becomes the content of the
tool-result message fed back to the model. -/
def toolResultMessage (r : Except String String) : String :=
  match r with
  | .ok s => s
  | .error msg => msg

/-! ## The per-thread conversation store (`app/core/agent.py` 307-330). -/

/-- Modelled from the spec: the checkpoint store behind
`FranceTravailAgent.clear_conversation` and the graph invocation is
langgraph's `MemorySaver`, which lives outside this repository. Per the
spec (§2 item 5, §3) it maps each thread identifier to that thread's
accumulated message history, "creating a new thread_id always starts with
an empty message sequence", and the clear operation "destroys explicitly"
the thread's stored state. -/
structure ConvStore where
  entries : List (String × List Msg)
deriving Repr, DecidableEq

/-- The store with no threads; every thread identifier is brand-new. -/
def ConvStore.empty : ConvStore := { entries := [] }

/-- The message history the checkpoint holds for a thread (empty when the
thread has no stored state). -/
def ConvStore.history (s : ConvStore) (tid : String) : List Msg :=
  match s.entries.find? (fun p => p.1 == tid) with
  | some p => p.2
  | none => []

/-- Method `FranceTravailAgent.clear_conversation`: deletes the thread's
checkpoint state (`self.memory.adelete(config)` for that `thread_id`). -/
def ConvStore.clearConversation (s : ConvStore) (tid : String) : ConvStore :=
  { entries := s.entries.filter (fun p => p.1 != tid) }

/-- The message list a `process_message` turn on a thread runs the graph
on: the checkpointed history of the thread followed by the new user
message (`add_messages` appends the initial state's message). -/
def turnMessages (s : ConvStore) (tid : String) (message : String) : List Msg :=
  s.history tid ++ [{ content := message }]

/-! ## Claim theorems -/

/-- C1: for every message, thread_id, user_profile and every exception
raised during the turn (abstracted as the `.error` outcome of the graph
invocation), `process_message` does not raise: it returns a result whose
`response` field is the fixed apology text and whose `error` field holds
the underlying error description. -/
theorem C1_process_message_error_contract (message thread_id : String)
    (user_profile : Option (List (String × String))) (e : String) :
    lookupField (processMessage message thread_id user_profile (.error e)) "response"
        = some (.str apologyText)
      ∧ lookupField (processMessage message thread_id user_profile (.error e)) "error"
        = some (.str e) := by
  exact ⟨rfl, rfl⟩

/-- Helper: the routing decision as a function of the classified intent
and the last message content. -/
theorem routeCondition_eq (st : AgentState) (i : String) (lm : Msg)
    (h1 : st.current_intent = some i) (h2 : st.messages.getLast? = some lm) :
    routeCondition st =
      match specializedTriggers i with
      | some triggers =>
          if triggers.any (fun t => strContainsSub (pyLower lm.content) t) then "specialized"
          else "agent"
      | none => "agent" := by
  unfold routeCondition
  rw [h1, h2]
  rfl

/-- Helper: when the routing decision is an if-then-else between the two
node names, it picks "specialized" exactly when the condition holds. -/
theorem specializedIte (b : Bool) :
    ((if b then "specialized" else "agent") : String) = "specialized" ↔ b = true := by
  cases b <;> simp

/-- C2: for every state with a classified intent and a last user message,
intents `job_search`, `training`, `admin`, `general` always route to the
general agent path; intents `cv_help`, `cover_letter`, `profile` route to
the specialized path exactly when the lower-cased message contains one of
the fixed per-intent trigger words; and in particular intent `cv_help`
with message "Comment améliorer mon CV ?" routes to the general path. -/
theorem C2_route_condition_policy (st : AgentState) (i : String) (lm : Msg)
    (h1 : st.current_intent = some i) (h2 : st.messages.getLast? = some lm) :
    (i ∈ ["job_search", "training", "admin", "general"] → routeCondition st = "agent")
      ∧ (i ∈ ["cv_help", "cover_letter", "profile"] →
          (routeCondition st = "specialized" ↔
            ∃ t ∈ (specializedTriggers i).getD [],
              strContainsSub (pyLower lm.content) t = true))
      ∧ routeCondition stateCvQuestion = "agent" := by
  refine ⟨?_, ?_, by decide⟩
  · intro hi
    rw [routeCondition_eq st i lm h1 h2]
    simp only [List.mem_cons, List.mem_singleton] at hi
    rcases hi with rfl | rfl | rfl | rfl | h
    · rfl
    · rfl
    · rfl
    · rfl
    · exact absurd h (List.not_mem_nil i)
  · intro hi
    rw [routeCondition_eq st i lm h1 h2]
    simp only [List.mem_cons, List.mem_singleton] at hi
    rcases hi with rfl | rfl | rfl | h
    · rw [show (match specializedTriggers "cv_help" with
          | some triggers =>
              if triggers.any (fun t => strContainsSub (pyLower lm.content) t) then
                "specialized"
              else "agent"
          | none => "agent") =
          (if (["génère", "crée", "rédige", "fais-moi"].any
              (fun t => strContainsSub (pyLower lm.content) t)) then "specialized"
           else "agent") from rfl, specializedIte]
      simp [List.any_eq_true, specializedTriggers]
    · rw [show (match specializedTriggers "cover_letter" with
          | some triggers =>
              if triggers.any (fun t => strContainsSub (pyLower lm.content) t) then
                "specialized"
              else "agent"
          | none => "agent") =
          (if (["écris", "rédige", "génère", "prépare"].any
              (fun t => strContainsSub (pyLower lm.content) t)) then "specialized"
           else "agent") from rfl, specializedIte]
      simp [List.any_eq_true, specializedTriggers]
    · rw [show (match specializedTriggers "profile" with
          | some triggers =>
              if triggers.any (fun t => strContainsSub (pyLower lm.content) t) then
                "specialized"
              else "agent"
          | none => "agent") =
          (if (["analyse", "évalue", "diagnostic", "bilan"].any
              (fun t => strContainsSub (pyLower lm.content) t)) then "specialized"
           else "agent") from rfl, specializedIte]
      simp [List.any_eq_true, specializedTriggers]
    · exact absurd h (List.not_mem_nil i)

/-- Witness for C2: a concrete state with intent `job_search` routes to
the general path, and a concrete `cv_help` state whose message carries the
trigger "génère" routes to the specialized path. -/
theorem C2_route_condition_policy_witness :
    routeCondition { messages := [{ content := "Je cherche un emploi" }],
                     current_intent := some "job_search" } = "agent"
      ∧ (routeCondition { messages := [{ content := "Génère mon CV" }],
                          current_intent := some "cv_help" } = "specialized" ↔
          ∃ t ∈ (specializedTriggers "cv_help").getD [],
            strContainsSub (pyLower "Génère mon CV") t = true) := by
  constructor
  · exact (C2_route_condition_policy
      { messages := [{ content := "Je cherche un emploi" }],
        current_intent := some "job_search" } "job_search"
      { content := "Je cherche un emploi" } rfl rfl).1 (by decide)
  · exact (C2_route_condition_policy
      { messages := [{ content := "Génère mon CV" }],
        current_intent := some "cv_help" } "cv_help"
      { content := "Génère mon CV" } rfl rfl).2.1 (by decide)

/-- C4: evaluating the routing condition at the failing input — the
message "Peux-tu générer mon CV ?" classified as `cv_help` — the code
routes to the general agent path, not the specialized path: the trigger
list for `cv_help` holds only the conjugated form "génère", which is not a
substring of the infinitive "générer". -/
theorem C4_generate_cv_routes_to_agent :
    routeCondition stateCvGenerate = "agent"
      ∧ stateCvGenerate.current_intent = some "cv_help"
      ∧ routeCondition stateCvGenerate ≠ "specialized" := by
  refine ⟨by decide, rfl, by decide⟩

/-- C3: every exception of the underlying operation of the fallible tools
(`search_job_offers`, `search_knowledge`, `generate_document`) is caught
at the tool boundary and turned into a tool-level error string that the
agent loop receives as a tool-result message — never an uncaught crash; in
particular an unsupported `doc_type` in `generate_document` becomes a
tool-error result. The fourth tool, `get_admin_info`, has no fallible
sub-operation and always returns a plain string. -/
theorem C3_tool_errors_become_strings (e : String) :
    toolResultMessage (searchJobOffersArun (.error e))
        = "Erreur lors de la recherche d\x27offres : " ++ e
      ∧ toolResultMessage (searchKnowledgeRun (.error e))
        = "Erreur lors de la recherche : " ++ e
      ∧ (∀ clGen, toolResultMessage (generateDocumentRun "cv" (.error e) clGen)
          = "Erreur lors de la génération : " ++ e)
      ∧ (∀ cvGen, toolResultMessage (generateDocumentRun "lettre_motivation" cvGen (.error e))
          = "Erreur lors de la génération : " ++ e)
      ∧ (∀ doc_type cvGen clGen, doc_type ≠ "cv" → doc_type ≠ "lettre_motivation" →
          generateDocumentRun doc_type cvGen clGen
            = .error ("Erreur lors de la génération : Type de document non supporté : "
                ++ doc_type))
      ∧ (∀ topic user_situation, ∃ s : String, getAdminInfo topic user_situation = s) := by
  refine ⟨rfl, rfl, fun clGen => rfl, fun cvGen => rfl, ?_, fun topic us => ⟨_, rfl⟩⟩
  intro doc_type cvGen clGen hcv hcl
  unfold generateDocumentRun
  rw [if_neg hcv, if_neg hcl]

/-- Witness for C3: concrete underlying errors and an unsupported
`doc_type` all surface as tool-error strings. -/
theorem C3_tool_errors_become_strings_witness :
    toolResultMessage (searchJobOffersArun (.error "timeout"))
        = "Erreur lors de la recherche d\x27offres : " ++ "timeout"
      ∧ generateDocumentRun "pdf" (.ok "cv.docx") (.ok "lm.docx")
        = .error ("Erreur lors de la génération : Type de document non supporté : "
            ++ "pdf") := by
  exact ⟨(C3_tool_errors_become_strings "timeout").1,
    (C3_tool_errors_become_strings "x").2.2.2.2.1 "pdf" (.ok "cv.docx") (.ok "lm.docx")
      (by decide) (by decide)⟩

/-- Helper: a filtered association list has no entry left for the removed
key. -/
theorem find?_filter_ne (l : List (String × List Msg)) (tid : String) :
    (l.filter (fun p => p.1 != tid)).find? (fun p => p.1 == tid) = none := by
  induction l with
  | nil => rfl
  | cons p rest ih =>
      by_cases hp : p.1 = tid
      · simp [List.filter, hp, ih]
      · simp only [List.filter]
        rw [show (p.1 != tid) = true by simp [hp]]
        simp only [List.find?]
        rw [show (p.1 == tid) = false by simp [hp]]
        exact ih

/-- Helper: a key with no entry looks up to the empty history. -/
theorem history_of_fresh (s : ConvStore) (tid : String)
    (h : ∀ p ∈ s.entries, p.1 ≠ tid) : s.history tid = [] := by
  unfold ConvStore.history
  rw [List.find?_eq_none.mpr (fun p hp => by simp [h p hp])]

/-- C5: clearing a conversation removes all stored state for the thread,
and a `process_message` turn after `clear_conversation(thread_id)` runs on
exactly the message list a brand-new thread_id would run on (empty
history, so classification starts fresh on the new message alone). -/
theorem C5_clear_conversation_fresh (s : ConvStore) (tid tid2 message : String)
    (hfresh : ∀ p ∈ s.entries, p.1 ≠ tid2) :
    (s.clearConversation tid).history tid = []
      ∧ (s.clearConversation tid).entries.find? (fun p => p.1 == tid) = none
      ∧ turnMessages (s.clearConversation tid) tid message
        = turnMessages ConvStore.empty tid message
      ∧ turnMessages (s.clearConversation tid) tid message
        = turnMessages s tid2 message := by
  have hnone : (s.clearConversation tid).entries.find? (fun p => p.1 == tid) = none :=
    find?_filter_ne s.entries tid
  have hhist : (s.clearConversation tid).history tid = [] := by
    unfold ConvStore.history
    rw [hnone]
  refine ⟨hhist, hnone, ?_, ?_⟩
  · unfold turnMessages
    rw [hhist]
    rfl
  · unfold turnMessages
    rw [hhist, history_of_fresh s tid2 hfresh]

/-- Witness for C5: clearing thread "t1" in a concrete two-thread store
makes the next turn on "t1" identical to a turn on the untouched fresh
thread "t9". -/
theorem C5_clear_conversation_fresh_witness :
    (ConvStore.clearConversation { entries := [("t1", [{ content := "салют" }]),
        ("t2", [{ content := "b" }])] } "t1").history "t1" = []
      ∧ turnMessages (ConvStore.clearConversation { entries := [("t1",
          [{ content := "салют" }]), ("t2", [{ content := "b" }])] } "t1") "t1" "Bonjour"
        = turnMessages { entries := [("t1", [{ content := "салют" }]),
            ("t2", [{ content := "b" }])] } "t9" "Bonjour" := by
  refine ⟨(C5_clear_conversation_fresh _ "t1" "t9" "Bonjour" ?_).1,
    (C5_clear_conversation_fresh _ "t1" "t9" "Bonjour" ?_).2.2.2⟩ <;> decide

/-- C6: with a cached unexpired token, `get_access_token` returns it and
performs zero refresh requests; with an absent or expired cached token it
performs exactly one refresh (the body runs under the lock, so callers
serialize) and caches a token whose `expires_at` is the current time plus
the server-declared `expires_in` minus the fixed 60-second margin. -/
theorem C6_token_cache (cache : Option AccessToken) (now : Int) (r : TokenResponse) :
    (∀ t, cache = some t → t.isExpired now = false →
        getAccessToken cache now r = (t.access_token, some t, 0))
      ∧ ((cache = none ∨ ∃ t, cache = some t ∧ t.isExpired now = true) →
          (getAccessToken cache now r).2.2 = 1
            ∧ (getAccessToken cache now r).2.1 = some (requestNewToken now r)
            ∧ (requestNewToken now r).expires_at = now + (r.expires_in - 60)
            ∧ (getAccessToken cache now r).1 = r.access_token) := by
  constructor
  · intro t ht hexp
    subst ht
    simp [getAccessToken, hexp]
  · intro hcase
    rcases hcase with rfl | ⟨t, rfl, hexp⟩
    · exact ⟨rfl, rfl, rfl, rfl⟩
    · simp only [getAccessToken, hexp]
      exact ⟨rfl, rfl, rfl, rfl⟩

/-- A concrete cached token for the C6 witness. -/
def tokCached : AccessToken :=
  { access_token := "tok", token_type := "Bearer", expires_in := 1500,
    scope := "api", expires_at := 100 }

/-- A concrete token-endpoint response for the C6 witness. -/
def respFresh : TokenResponse :=
  { access_token := "new", token_type := "Bearer", expires_in := 1500, scope := "api" }

/-- Witness for C6: a concrete valid cached token is returned with zero
refreshes; a concrete expired cache triggers exactly one refresh with the
60-second-margin expiry. -/
theorem C6_token_cache_witness :
    getAccessToken (some tokCached) 50 respFresh = ("tok", some tokCached, 0)
      ∧ (getAccessToken (some tokCached) 200 respFresh).2.2 = 1
      ∧ (requestNewToken 200 respFresh).expires_at = 200 + (1500 - 60) := by
  refine ⟨(C6_token_cache (some tokCached) 50 respFresh).1 tokCached rfl (by decide),
    ((C6_token_cache (some tokCached) 200 respFresh).2
      (Or.inr ⟨tokCached, rfl, by decide⟩)).1,
    ?_⟩
  have h := ((C6_token_cache (some tokCached) 200 respFresh).2
    (Or.inr ⟨tokCached, rfl, by decide⟩)).2.2.1
  simpa [respFresh] using h

/-- C7 counterexample: on the failure path the result of `process_message`
is a mapping with only `response`, `error` and `thread_id` — at the
concrete failing turn below, the `intent`, `specialized` and `tools_used`
fields required by the claim are absent. -/
theorem C7_failure_result_missing_fields :
    lookupField (processMessage "Bonjour" "t7" none (.error "boom")) "error"
        = some (.str "boom")
      ∧ lookupField (processMessage "Bonjour" "t7" none (.error "boom")) "intent" = none
      ∧ lookupField (processMessage "Bonjour" "t7" none (.error "boom")) "specialized" = none
      ∧ lookupField (processMessage "Bonjour" "t7" none (.error "boom")) "tools_used"
        = none := by
  decide

/-- C7 as amended: a success result carries `response`, `intent`,
`specialized`, `thread_id` and `tools_used` (and no `error`); a failure
result carries only `response`, `error` and `thread_id`, with `intent`,
`specialized` and `tools_used` absent. -/
theorem C7_result_fields (m tid : String) (p : Option (List (String × String)))
    (res : GraphResult) (fm : Msg) (e : String) :
    (res.messages.getLast? = some fm →
        lookupField (processMessage m tid p (.ok res)) "response" = some (.str fm.content)
          ∧ lookupField (processMessage m tid p (.ok res)) "intent"
            = some (.str (res.current_intent.getD "general"))
          ∧ lookupField (processMessage m tid p (.ok res)) "specialized"
            = some (.bool (optStrTruthy res.specialized_response))
          ∧ lookupField (processMessage m tid p (.ok res)) "thread_id" = some (.str tid)
          ∧ lookupField (processMessage m tid p (.ok res)) "tools_used"
            = some (.strList (extractToolsUsed res.messages))
          ∧ lookupField (processMessage m tid p (.ok res)) "error" = none)
      ∧ (lookupField (processMessage m tid p (.error e)) "response"
            = some (.str apologyText)
          ∧ lookupField (processMessage m tid p (.error e)) "error" = some (.str e)
          ∧ lookupField (processMessage m tid p (.error e)) "thread_id" = some (.str tid)
          ∧ lookupField (processMessage m tid p (.error e)) "intent" = none
          ∧ lookupField (processMessage m tid p (.error e)) "specialized" = none
          ∧ lookupField (processMessage m tid p (.error e)) "tools_used" = none) := by
  refine ⟨fun h => ?_, rfl, rfl, rfl, rfl, rfl, rfl⟩
  simp only [processMessage, h]
  exact ⟨rfl, rfl, rfl, rfl, rfl, rfl⟩

/-- A concrete successful graph result for the C7 witness. -/
def resSalut : GraphResult :=
  { messages := [{ content := "Bonjour" }, { content := "Salut !" }],
    current_intent := some "general" }

/-- Witness for C7: the amended field contract at a concrete successful
turn. -/
theorem C7_result_fields_witness :
    lookupField (processMessage "Bonjour" "t1" none (.ok resSalut)) "intent"
        = some (.str (resSalut.current_intent.getD "general"))
      ∧ lookupField (processMessage "Bonjour" "t1" none (.ok resSalut)) "error" = none := by
  have h := (C7_result_fields "Bonjour" "t1" none resSalut { content := "Salut !" } "e").1
    (by decide)
  exact ⟨h.2.1, h.2.2.2.2.2⟩

/-- C8: the job-search tool does not throw on a successful service
response; zero total results give the fixed no-offers message; a non-zero
total gives a summary opening with the header that carries the total
count, built from at most the first five offers, and — when more than five
offers matched — ending with the remaining-count note. -/
theorem C8_search_offers_result (resp : SearchOfferResponse) :
    searchJobOffersArun (.ok resp) = .ok (searchOffersFormat resp)
      ∧ (resp.total_results = 0 → searchOffersFormat resp = noOffersMsg)
      ∧ (resp.total_results ≠ 0 →
          ∃ rest, searchOffersFormat resp = offersHeader resp.total_results ++ rest)
      ∧ searchOffersFormat resp = searchOffersFormat { resp with offers := resp.offers.take 5 }
      ∧ (resp.offers.take 5).length ≤ 5
      ∧ (5 < resp.total_results →
          ∃ s, searchOffersFormat resp = s ++ remainingNote (resp.total_results - 5)) := by
  refine ⟨rfl, ?_, ?_, ?_, ?_, ?_⟩
  · intro h
    unfold searchOffersFormat
    rw [if_pos h]
  · intro h
    unfold searchOffersFormat
    rw [if_neg h]
    exact ⟨_, String.append_assoc _ _ _⟩
  · show searchOffersFormat resp
      = searchOffersFormat { total_results := resp.total_results,
                             offers := resp.offers.take 5 }
    unfold searchOffersFormat
    simp [List.take_take]
  · exact List.length_take_le 5 resp.offers
  · intro h
    unfold searchOffersFormat
    rw [if_neg (by omega : ¬ resp.total_results = 0), if_pos h]
    exact ⟨_, rfl⟩

/-- A concrete offer for the C8 witness. -/
def offerDev : JobOffer :=
  { title := "Développeur Python", company_name := "ACME", location := "Paris",
    contract_type := .cdi, experience_required := .debutant,
    date_creation := { year := 2025, month := 3, day := 7 },
    url := "https://candidat.francetravail.fr/offres/1" }

/-- A concrete seven-result response for the C8 witness. -/
def respSeven : SearchOfferResponse :=
  { total_results := 7, offers := [offerDev] }

/-- Witness for C8: zero results give the no-offers message; seven results
give a summary ending with the two-remaining-offers note. -/
theorem C8_search_offers_result_witness :
    searchOffersFormat { total_results := 0, offers := [] } = noOffersMsg
      ∧ ∃ s, searchOffersFormat respSeven
          = s ++ remainingNote (respSeven.total_results - 5) := by
  exact ⟨(C8_search_offers_result { total_results := 0, offers := [] }).2.1 rfl,
    (C8_search_offers_result respSeven).2.2.2.2.2 (by decide)⟩

/-- Helper: a key outside the three table topics looks up to nothing. -/
theorem adminInfoLookup_none_of_not_mem (k : String)
    (h : ¬ k ∈ ["inscription", "actualisation", "allocations"]) :
    adminInfoLookup k = none := by
  simp only [List.mem_cons, List.not_mem_nil, or_false, not_or] at h
  obtain ⟨h1, h2, h3⟩ := h
  unfold adminInfoLookup
  rw [if_neg h1, if_neg h2, if_neg h3]

/-- C9: `get_admin_info` looks the lower-cased topic up in the fixed
table; a topic outside `inscription`, `actualisation`, `allocations`
yields the valid-topics message (not an error), and a topic inside the
table yields its formatted information. -/
theorem C9_admin_info (topic : String) (us : Option String) :
    (¬ pyLower topic ∈ ["inscription", "actualisation", "allocations"] →
        getAdminInfo topic us = adminTopicsMsg)
      ∧ (∀ info, adminInfoLookup (pyLower topic) = some info →
          getAdminInfo topic us = formatAdminInfo info us)
      ∧ (pyLower topic ∈ ["inscription", "actualisation", "allocations"] →
          ∃ info, adminInfoLookup (pyLower topic) = some info
            ∧ getAdminInfo topic us = formatAdminInfo info us) := by
  refine ⟨?_, ?_, ?_⟩
  · intro h
    unfold getAdminInfo
    rw [adminInfoLookup_none_of_not_mem _ h]
  · intro info h
    unfold getAdminInfo
    rw [h]
  · intro h
    simp only [List.mem_cons, List.not_mem_nil, or_false] at h
    unfold getAdminInfo
    rcases h with heq | heq | heq <;> rw [heq] <;> exact ⟨_, rfl, rfl⟩

/-- Witness for C9: the unknown topic "unknown_topic" yields the
valid-topics message; the topic "Inscription" (upper-cased on purpose)
yields the formatted inscription information. -/
theorem C9_admin_info_witness :
    getAdminInfo "unknown_topic" none = adminTopicsMsg
      ∧ ∃ info, adminInfoLookup (pyLower "Inscription") = some info
          ∧ getAdminInfo "Inscription" none = formatAdminInfo info none := by
  exact ⟨(C9_admin_info "unknown_topic" none).1 (by decide),
    (C9_admin_info "Inscription" none).2.2 (by decide)⟩

/-- C10: the `contract_types` field validator never raises a validation
error — it keeps exactly the entries among `CDI, CDD, MIS, SAI, STG` in
order and silently removes the rest; a list of only invalid entries is
accepted, becomes the empty list, and produces no contract-type filter at
all in the downstream request. -/
theorem C10_contract_types_validation (v : Option (List String)) (l : List String) :
    (∃ r, validate_contract_types v = .ok r)
      ∧ validate_contract_types (some l)
        = .ok (some (l.filter (fun ct => validContractTypeValues.contains ct)))
      ∧ (∀ r, validate_contract_types (some l) = .ok (some r) →
          ∀ x ∈ r, x ∈ validContractTypeValues)
      ∧ ((∀ x ∈ l, ¬ x ∈ validContractTypeValues) →
          validate_contract_types (some l) = .ok (some [])
            ∧ contractFilterOfInput l = .ok none) := by
  refine ⟨?_, rfl, ?_, ?_⟩
  · cases v with
    | none => exact ⟨none, rfl⟩
    | some l2 => exact ⟨_, rfl⟩
  · intro r h x hx
    have hr : l.filter (fun ct => validContractTypeValues.contains ct) = r := by
      simpa [validate_contract_types] using h
    rw [← hr] at hx
    have := (List.mem_filter.mp hx).2
    simpa [List.contains, List.elem_iff] using this
  · intro h
    have hf : l.filter (fun ct => validContractTypeValues.contains ct) = [] := by
      rw [List.filter_eq_nil_iff]
      intro a ha
      simpa [List.contains, List.elem_iff] using h a ha
    constructor
    · show Except.ok (some (l.filter (fun ct => validContractTypeValues.contains ct)))
        = Except.ok (some ([] : List String))
      rw [hf]
    · have hstep : contractFilterOfInput l
          = convertContractTypes (some (l.filter
              (fun ct => validContractTypeValues.contains ct))) := rfl
      rw [hstep, hf]
      rfl

/-- Witness for C10: the all-invalid list yields no filter and no
validation error. -/
theorem C10_contract_types_validation_witness :
    validate_contract_types (some ["FOO", "BAR"]) = .ok (some [])
      ∧ contractFilterOfInput ["FOO", "BAR"] = .ok none := by
  exact (C10_contract_types_validation none ["FOO", "BAR"]).2.2.2 (by decide)

end FTGPT
